import Mathlib

/-!
Verification of the Conversation Sentiment & Alerting Engine.

This file gives a shallow embedding of the engine's core components
(score normalization, emotion aggregation, session store, alert manager,
tabular export) and proves the specified properties about them.

Modelling conventions:
- Python floats are modelled as exact rationals (`ℚ`); the worked values in
  the specification (0.8, 0.33, ...) are exact at machine precision for the
  operations involved.
- Python `datetime.now()` results are passed in explicitly as a `now`
  argument (explicit state passing for the clock).
- Python dicts with a fixed key set are modelled as structures; the emotion
  score dicts, whose keys come from a configurable label list, are modelled
  as association lists in key order.
- Python exceptions are modelled with `Except`; a `KeyError` that can only
  arise from malformed input is modelled with `Option`.
-/

/-- Python `int()` applied to a number truncates toward zero. -/
def pyInt (q : ℚ) : ℤ := if 0 ≤ q then ⌊q⌋ else ⌈q⌉

namespace SentimentAnalyzer

/-- The fixed sentiment label list (`self.labels`). -/
def labels : List String := ["negative", "neutral", "positive"]

/-- The default emotion label list (`self.emotion_labels`). -/
def emotion_labels : List String :=
  ["joy", "sadness", "anger", "fear", "surprise", "disgust", "neutral"]

/-- The three-class sentiment probability dict (keys negative/neutral/positive). -/
structure SentimentScores where
  negative : ℚ
  neutral : ℚ
  positive : ℚ
deriving DecidableEq

/-- The dict returned by `SentimentAnalyzer.analyze`.  The `score` key is
absent (`none`) on the degenerate early-return branch. -/
structure AnalysisResult where
  label : String
  confidence : ℚ
  scores : SentimentScores
  score : Option ℤ
deriving DecidableEq

/-- `SentimentAnalyzer._calculate_sentiment_score`. -/
def _calculate_sentiment_score (label : String) (confidence : ℚ)
    (scores : SentimentScores) : ℤ :=
  if label = "positive" then
    pyInt (50 + scores.positive * 50)
  else if label = "negative" then
    pyInt (50 - scores.negative * 50)
  else
    pyInt (max 0 (min 100 (50 + (scores.positive - scores.negative) * 10)))

/-- Python `not text.strip()`: `str.strip()` with no argument removes
leading and trailing whitespace, so its result is empty exactly when every
character of the text is whitespace. -/
def stripIsEmpty (text : String) : Bool := text.toList.all Char.isWhitespace

/-- `SentimentAnalyzer.analyze`.  The external classifier (tokenizer, model
and softmax) is abstracted as a function `classify` giving the three class
probabilities; the code zips them with `labels` and takes the first index
of the maximum. -/
def analyze (classify : String → SentimentScores) (text : String) :
    AnalysisResult :=
  if text.isEmpty || stripIsEmpty text then
    { label := "neutral", confidence := 0,
      scores := { negative := 0.33, neutral := 0.34, positive := 0.33 },
      score := none }
  else
    let sd := classify text
    let scoresList := [sd.negative, sd.neutral, sd.positive]
    let m := max (max sd.negative sd.neutral) sd.positive
    let max_idx := scoresList.indexOf m
    let label := labels.getD max_idx ""
    let confidence := scoresList.getD max_idx 0
    { label := label, confidence := confidence, scores := sd,
      score := some (_calculate_sentiment_score label confidence sd) }

/-- Reading a Python dict entry with default 0 (used to state properties of
the emotion dicts, which are modelled as association lists). -/
def dictGet : List (String × ℚ) → String → ℚ
  | [], _ => 0
  | (k, v) :: rest, e => if k = e then v else dictGet rest e

/-- Python `aggregated[emotion] += score`: add to the entry of an existing
key, `none` when the key is absent (`KeyError`). -/
def dictAdd : List (String × ℚ) → String → ℚ → Option (List (String × ℚ))
  | [], _, _ => none
  | (k, v) :: rest, e, s =>
    if k = e then some ((k, v + s) :: rest)
    else (dictAdd rest e s).map (fun t => (k, v) :: t)

/-- The inner loop of `get_emotion_summary`: fold one result's score dict
into the accumulator. -/
def addScores (agg : List (String × ℚ)) :
    List (String × ℚ) → Option (List (String × ℚ))
  | [] => some agg
  | (e, s) :: rest => (dictAdd agg e s).bind (fun a => addScores a rest)

/-- The outer loop of `get_emotion_summary`: fold every result into the
accumulator. -/
def sumScores (agg : List (String × ℚ)) :
    List (List (String × ℚ)) → Option (List (String × ℚ))
  | [] => some agg
  | r :: rs => (addScores agg r).bind (fun a => sumScores a rs)

/-- `SentimentAnalyzer.get_emotion_summary`. -/
def get_emotion_summary (emotion_results : List (List (String × ℚ))) :
    Option (List (String × ℚ)) :=
  if emotion_results.isEmpty then
    some (emotion_labels.map (fun e => (e, 0)))
  else
    (sumScores (emotion_labels.map (fun e => (e, 0))) emotion_results).map
      (fun agg => agg.map (fun p => (p.1, p.2 / (emotion_results.length : ℚ))))

end SentimentAnalyzer

namespace ConversationManager

/-- One entry of the conversation history. -/
structure Message where
  role : String
  content : String
  timestamp : String
deriving DecidableEq

end ConversationManager

/-- The state of a `ConversationManager` instance. -/
structure ConversationManager where
  history : List ConversationManager.Message
  session_id : String
  created_at : String
  updated_at : String
deriving DecidableEq

namespace ConversationManager

/-- `ConversationManager._generate_session_id` (the `strftime` format of the
current time is abstracted into the `now` string). -/
def _generate_session_id (now : String) : String := "session_" ++ now

/-- `ConversationManager.__init__`. -/
def init (session_id : Option String) (now : String) : ConversationManager :=
  { history := [],
    session_id := session_id.getD (_generate_session_id now),
    created_at := now,
    updated_at := now }

/-- `ConversationManager.add_message`.  Raising `ValueError` is modelled as
`Except.error`; the two `datetime.now()` calls are the `now` argument. -/
def add_message (self : ConversationManager) (role content now : String) :
    Except String ConversationManager :=
  if role ∉ (["user", "assistant"] : List String) then
    Except.error "Role must be user or assistant"
  else
    Except.ok { self with
      history := self.history ++ [{ role := role, content := content, timestamp := now }],
      updated_at := now }

/-- The JSON record written by `save_to_file` and read by `load_from_file`.
Each structural field is optional (the code reads them with `data.get`);
`extra` stands for any unknown extra fields of the record. -/
structure SavedData where
  session_id : Option String
  created_at : Option String
  updated_at : Option String
  history : Option (List Message)
  extra : List (String × String)
deriving DecidableEq

/-- `ConversationManager.save_to_file`: the file content that is serialized
(the filesystem write itself is external I/O). -/
def save_to_file (self : ConversationManager) : SavedData :=
  { session_id := some self.session_id,
    created_at := some self.created_at,
    updated_at := some self.updated_at,
    history := some self.history,
    extra := [] }

/-- `ConversationManager.load_from_file`: builds a manager from the parsed
record, defaulting every absent field (`data.get`). -/
def load_from_file (data : SavedData) (now : String) : ConversationManager :=
  let manager := init data.session_id now
  { manager with
    created_at := data.created_at.getD now,
    updated_at := data.updated_at.getD now,
    history := data.history.getD [] }

end ConversationManager

namespace SentimentAlertManager

/-- One alert record as constructed by `check_sentiment`. -/
structure Alert where
  timestamp : String
  score : ℚ
  threshold : ℚ
  message : Option String
  severity : String
deriving DecidableEq

end SentimentAlertManager

/-- The state of a `SentimentAlertManager` instance (the optional dispatch
callback is external I/O and does not influence the state transitions). -/
structure SentimentAlertManager where
  threshold : ℚ
  alert_history : List SentimentAlertManager.Alert
  alert_enabled : Bool
deriving DecidableEq

namespace SentimentAlertManager

/-- `SentimentAlertManager.__init__`. -/
def init (threshold : ℚ) : SentimentAlertManager :=
  { threshold := threshold, alert_history := [], alert_enabled := true }

/-- `SentimentAlertManager.__init__` called with its default threshold 30.0
and no callback. -/
def default_init : SentimentAlertManager := init 30

/-- `SentimentAlertManager._calculate_severity`. -/
def _calculate_severity (score : ℚ) : String :=
  if score < 10 then "critical"
  else if score < 20 then "high"
  else if score < 30 then "medium"
  else "low"

/-- `SentimentAlertManager.check_sentiment`: returns the optional alert and
the successor state. -/
def check_sentiment (self : SentimentAlertManager) (sentiment_score : ℚ)
    (message : Option String) (now : String) :
    Option Alert × SentimentAlertManager :=
  if !self.alert_enabled then
    (none, self)
  else if sentiment_score < self.threshold then
    let alert : Alert :=
      { timestamp := now, score := sentiment_score, threshold := self.threshold,
        message := message, severity := _calculate_severity sentiment_score }
    (some alert, { self with alert_history := self.alert_history ++ [alert] })
  else
    (none, self)

/-- `SentimentAlertManager.check_statement_sentiment`: reads the result's
`score` key with default 50 and delegates to `check_sentiment`. -/
def check_statement_sentiment (self : SentimentAlertManager)
    (sentiment_result : SentimentAnalyzer.AnalysisResult)
    (message : Option String) (now : String) :
    Option Alert × SentimentAlertManager :=
  check_sentiment self ((sentiment_result.score.getD 50 : ℤ) : ℚ) message now

/-- `SentimentAlertManager.disable_alerts`. -/
def disable_alerts (self : SentimentAlertManager) : SentimentAlertManager :=
  { self with alert_enabled := false }

/-- `SentimentAlertManager.enable_alerts`. -/
def enable_alerts (self : SentimentAlertManager) : SentimentAlertManager :=
  { self with alert_enabled := true }

end SentimentAlertManager

namespace ConversationExporter

/-- One CSV cell as handed to the external `csv.writer`: a string, an
integer, or a confidence rendered by the `.2%` format (the percent
rendering itself is external string formatting, so the cell keeps the
formatted value). -/
inductive Cell where
  | str : String → Cell
  | int : ℤ → Cell
  | pct : ℚ → Cell
deriving DecidableEq

/-- One per-message sentiment result dict as consumed by the exporter; every
key is read with `dict.get`, so each is optional. -/
structure SentResult where
  label : Option String
  score : Option ℤ
  confidence : Option ℚ
deriving DecidableEq

/-- The CSV header row. -/
def headerRow : List Cell :=
  [Cell.str "Message Number", Cell.str "Role", Cell.str "Message",
   Cell.str "Sentiment", Cell.str "Score", Cell.str "Confidence"]

/-- The first three cells of a data row: `[i + 1, msg.role, msg.content]`. -/
def baseCells (i : ℕ) (msg : ConversationManager.Message) : List Cell :=
  [Cell.int (i + 1), Cell.str msg.role, Cell.str msg.content]

/-- The three analysis cells of a user row that consumes a result. -/
def resultCells (sent : SentResult) : List Cell :=
  [Cell.str (sent.label.getD "N/A"),
   (match sent.score with
    | some n => Cell.int n
    | none => Cell.str "N/A"),
   Cell.pct (sent.confidence.getD 0)]

/-- The three placeholder cells of a row without analysis. -/
def placeholderCells : List Cell :=
  [Cell.str "N/A", Cell.str "N/A", Cell.str "N/A"]

/-- The row loop of `export_to_csv`: `i` is the `enumerate` index and
`user_msg_index` counts the user rows that already consumed a result. -/
def csvLoop : List ConversationManager.Message → ℕ → ℕ → List SentResult →
    List (List Cell)
  | [], _, _, _ => []
  | msg :: rest, i, user_msg_index, sentiment_results =>
    if h : msg.role = "user" ∧ user_msg_index < sentiment_results.length then
      (baseCells i msg ++ resultCells (sentiment_results.get ⟨user_msg_index, h.2⟩))
        :: csvLoop rest (i + 1) (user_msg_index + 1) sentiment_results
    else
      (baseCells i msg ++ placeholderCells)
        :: csvLoop rest (i + 1) user_msg_index sentiment_results

/-- `ConversationExporter.export_to_csv`: the rows handed to the external
`csv.writer` (a `None` results argument behaves like the empty list). -/
def export_to_csv (conversation_history : List ConversationManager.Message)
    (sentiment_results : List SentResult) : List (List Cell) :=
  headerRow :: csvLoop conversation_history 0 0 sentiment_results

/-- Specification-side description of the tabular export, written after the
positional-matching invariant of the specification: each user row in order
consumes the next remaining result; assistant rows and user rows beyond the
supplied results get placeholders. -/
def csvPositionalSpec : List ConversationManager.Message → List SentResult →
    ℕ → List (List Cell)
  | [], _, _ => []
  | msg :: rest, results, i =>
    if msg.role = "user" then
      match results with
      | [] => (baseCells i msg ++ placeholderCells) :: csvPositionalSpec rest [] (i + 1)
      | r :: rs => (baseCells i msg ++ resultCells r) :: csvPositionalSpec rest rs (i + 1)
    else
      (baseCells i msg ++ placeholderCells) :: csvPositionalSpec rest results (i + 1)

end ConversationExporter

open SentimentAnalyzer ConversationExporter

/-- Python `int()` of a number that is already an integer is that integer. -/
theorem pyInt_intCast (z : ℤ) : pyInt (z : ℚ) = z := by
  unfold pyInt
  split <;> simp

/-- Evaluation helper for `pyInt` at integer-valued arguments. -/
theorem pyInt_eq_of {q : ℚ} {z : ℤ} (h : q = (z : ℚ)) : pyInt q = z := by
  rw [h, pyInt_intCast]

/-- C1: the score normalizer `_calculate_sentiment_score` is a total function
over its three branches: for label "positive" with a probability in [0,1] it
returns an integer in [50,100] and returns 100 at probability 1; for label
"negative" with scores[negative] = 0.8 it returns 10; for label "neutral"
with scores {positive: 0.6, negative: 0.1} it returns 55, the neutral branch
being clamped to [0,100]. -/
theorem c1_score_normalizer :
    (∀ (c : ℚ) (s : SentimentScores), 0 ≤ s.positive → s.positive ≤ 1 →
      50 ≤ _calculate_sentiment_score "positive" c s ∧
        _calculate_sentiment_score "positive" c s ≤ 100) ∧
    (∀ (c : ℚ) (s : SentimentScores), s.positive = 1 →
      _calculate_sentiment_score "positive" c s = 100) ∧
    (∀ (c : ℚ) (s : SentimentScores), s.negative = 0.8 →
      _calculate_sentiment_score "negative" c s = 10) ∧
    (∀ (c : ℚ) (s : SentimentScores), s.positive = 0.6 → s.negative = 0.1 →
      _calculate_sentiment_score "neutral" c s = 55) ∧
    (∀ (c : ℚ) (s : SentimentScores),
      0 ≤ _calculate_sentiment_score "neutral" c s ∧
        _calculate_sentiment_score "neutral" c s ≤ 100) := by
  refine ⟨?_, ?_, ?_, ?_, ?_⟩
  · intro c s h0 h1
    unfold _calculate_sentiment_score
    rw [if_pos rfl]
    have hq0 : (0 : ℚ) ≤ 50 + s.positive * 50 := by nlinarith
    have hq1 : (50 : ℚ) ≤ 50 + s.positive * 50 := by nlinarith
    have hq2 : 50 + s.positive * 50 ≤ (100 : ℚ) := by nlinarith
    unfold pyInt
    rw [if_pos hq0]
    constructor
    · exact Int.le_floor.mpr (by exact_mod_cast hq1)
    · have hf : (⌊50 + s.positive * 50⌋ : ℚ) ≤ 100 :=
        (Int.floor_le _).trans hq2
      exact_mod_cast hf
  · intro c s h
    unfold _calculate_sentiment_score
    rw [if_pos rfl, h]
    exact pyInt_eq_of (by norm_num)
  · intro c s h
    unfold _calculate_sentiment_score
    rw [if_neg (by decide), if_pos rfl, h]
    exact pyInt_eq_of (by norm_num)
  · intro c s hp hn
    unfold _calculate_sentiment_score
    rw [if_neg (by decide), if_neg (by decide), hp, hn]
    exact pyInt_eq_of (by norm_num)
  · intro c s
    unfold _calculate_sentiment_score
    rw [if_neg (by decide), if_neg (by decide)]
    have hq0 : (0 : ℚ) ≤ max 0 (min 100 (50 + (s.positive - s.negative) * 10)) :=
      le_max_left _ _
    have hq2 : max 0 (min 100 (50 + (s.positive - s.negative) * 10)) ≤ (100 : ℚ) :=
      max_le (by norm_num) (min_le_left _ _)
    unfold pyInt
    rw [if_pos hq0]
    constructor
    · exact Int.le_floor.mpr (by exact_mod_cast hq0)
    · have hf : (⌊max 0 (min 100 (50 + (s.positive - s.negative) * 10))⌋ : ℚ) ≤ 100 :=
        (Int.floor_le _).trans hq2
      exact_mod_cast hf

/-- Witness for C1 at concrete classification results. -/
theorem c1_score_normalizer_witness :
    ((0 : ℚ) ≤ (0.7 : ℚ) ∧ (0.7 : ℚ) ≤ 1 ∧
      50 ≤ _calculate_sentiment_score "positive" 0.7 ⟨0.1, 0.2, 0.7⟩ ∧
      _calculate_sentiment_score "positive" 0.7 ⟨0.1, 0.2, 0.7⟩ ≤ 100) ∧
    _calculate_sentiment_score "positive" 1 ⟨0, 0, 1⟩ = 100 ∧
    _calculate_sentiment_score "negative" 0.8 ⟨0.8, 0.1, 0.1⟩ = 10 ∧
    _calculate_sentiment_score "neutral" 0.6 ⟨0.1, 0.3, 0.6⟩ = 55 ∧
    (0 ≤ _calculate_sentiment_score "neutral" 0.6 ⟨0.1, 0.3, 0.6⟩ ∧
      _calculate_sentiment_score "neutral" 0.6 ⟨0.1, 0.3, 0.6⟩ ≤ 100) :=
  ⟨⟨by norm_num, by norm_num,
    (c1_score_normalizer.1 0.7 ⟨0.1, 0.2, 0.7⟩ (by norm_num) (by norm_num)).1,
    (c1_score_normalizer.1 0.7 ⟨0.1, 0.2, 0.7⟩ (by norm_num) (by norm_num)).2⟩,
   c1_score_normalizer.2.1 1 ⟨0, 0, 1⟩ rfl,
   c1_score_normalizer.2.2.1 0.8 ⟨0.8, 0.1, 0.1⟩ rfl,
   c1_score_normalizer.2.2.2.1 0.6 ⟨0.1, 0.3, 0.6⟩ rfl rfl,
   c1_score_normalizer.2.2.2.2 0.6 ⟨0.1, 0.3, 0.6⟩⟩

/-- C2 counterexample: on empty input, `analyze` returns a result dict with
no score entry at all, so the returned value does not carry a sentiment
score of 50 as the claim states. -/
theorem c2_analyze_blank_counterexample :
    (analyze (fun _ => ⟨0.1, 0.2, 0.7⟩) "").score = none ∧
    (analyze (fun _ => ⟨0.1, 0.2, 0.7⟩) "").score ≠ some 50 :=
  ⟨rfl, by decide⟩

/-- C2 (amended): on empty or whitespace-only input, `analyze` bypasses the
classifier and returns label "neutral", confidence 0.0 and scores
{negative: 0.33, neutral: 0.34, positive: 0.33}, with no explicit score
entry; reading the score with the default of 50 (as every consumer does)
observes 50. -/
theorem c2_analyze_blank :
    ∀ (classify : String → SentimentScores) (text : String),
      (text.isEmpty || stripIsEmpty text) = true →
      analyze classify text =
        { label := "neutral", confidence := 0,
          scores := { negative := 0.33, neutral := 0.34, positive := 0.33 },
          score := none } ∧
      (analyze classify text).score.getD 50 = 50 := by
  intro classify text h
  constructor
  · unfold analyze
    rw [if_pos h]
  · unfold analyze
    rw [if_pos h]
    rfl

/-- Witness for C2 at a whitespace-only input. -/
theorem c2_analyze_blank_witness :
    ((" " : String).isEmpty || stripIsEmpty " ") = true ∧
    (analyze (fun _ => ⟨0.2, 0.3, 0.5⟩) " " =
      { label := "neutral", confidence := 0,
        scores := { negative := 0.33, neutral := 0.34, positive := 0.33 },
        score := none } ∧
     (analyze (fun _ => ⟨0.2, 0.3, 0.5⟩) " ").score.getD 50 = 50) :=
  ⟨by decide, c2_analyze_blank (fun _ => ⟨0.2, 0.3, 0.5⟩) " " (by decide)⟩

/-- C3 counterexample: `add_message` accepts empty content and appends the
message, rather than failing with an empty-content error as the claim
states. -/
theorem c3_add_message_counterexample :
    ConversationManager.add_message ⟨[], "s1", "t0", "t0"⟩ "user" "" "t1" =
      Except.ok ⟨[⟨"user", "", "t1"⟩], "s1", "t0", "t1"⟩ := rfl

/-- C3 (amended): `add_message` fails with the invalid-role `ValueError`
when the role is neither "user" nor "assistant" (the error is raised to the
immediate caller), and otherwise — even for empty content — appends exactly
one message with a fresh timestamp and bumps `updated_at`. -/
theorem c3_add_message :
    ∀ (self : ConversationManager) (role content now : String),
      (role ∉ (["user", "assistant"] : List String) →
        ConversationManager.add_message self role content now =
          Except.error "Role must be user or assistant") ∧
      (role ∈ (["user", "assistant"] : List String) →
        ConversationManager.add_message self role content now =
          Except.ok { self with
            history := self.history ++ [⟨role, content, now⟩],
            updated_at := now }) := by
  intro self role content now
  constructor
  · intro h
    unfold ConversationManager.add_message
    rw [if_pos h]
  · intro h
    unfold ConversationManager.add_message
    have h2 : ¬ role ∉ (["user", "assistant"] : List String) := fun hc => hc h
    rw [if_neg h2]

/-- Witness for C3 at a concrete invalid role and a concrete valid append. -/
theorem c3_add_message_witness :
    ("bot" ∉ (["user", "assistant"] : List String) ∧
      ConversationManager.add_message ⟨[], "s1", "t0", "t0"⟩ "bot" "hi" "t1" =
        Except.error "Role must be user or assistant") ∧
    ("assistant" ∈ (["user", "assistant"] : List String) ∧
      ConversationManager.add_message ⟨[], "s1", "t0", "t0"⟩ "assistant" "hi" "t1" =
        Except.ok ⟨[⟨"assistant", "hi", "t1"⟩], "s1", "t0", "t1"⟩) :=
  ⟨⟨by decide, (c3_add_message ⟨[], "s1", "t0", "t0"⟩ "bot" "hi" "t1").1 (by decide)⟩,
   ⟨by decide, (c3_add_message ⟨[], "s1", "t0", "t0"⟩ "assistant" "hi" "t1").2 (by decide)⟩⟩

/-- C4: for an enabled alert manager with threshold 30, `check_sentiment` on
a score at or above the threshold returns nothing and leaves the history
unchanged; on a score strictly below it appends exactly one new alert and
returns it, with severity from the fixed bands (29 gives "medium", 9 gives
"critical", 30 gives nothing), and repeated low scores are not
deduplicated. -/
theorem c4_alert_bands :
    ∀ (self : SentimentAlertManager) (msg : Option String) (now : String),
      self.threshold = 30 → self.alert_enabled = true →
      (∀ score : ℚ, 30 ≤ score →
        SentimentAlertManager.check_sentiment self score msg now = (none, self)) ∧
      (∀ score : ℚ, score < 30 →
        SentimentAlertManager.check_sentiment self score msg now =
          (some ⟨now, score, 30, msg, SentimentAlertManager._calculate_severity score⟩,
           { self with alert_history := self.alert_history ++
              [⟨now, score, 30, msg, SentimentAlertManager._calculate_severity score⟩] })) ∧
      ((SentimentAlertManager.check_sentiment self 29 msg now).1.map
          SentimentAlertManager.Alert.severity = some "medium") ∧
      ((SentimentAlertManager.check_sentiment self 9 msg now).1.map
          SentimentAlertManager.Alert.severity = some "critical") ∧
      (SentimentAlertManager.check_sentiment self 30 msg now = (none, self)) ∧
      (∀ score : ℚ, score < 30 →
        (SentimentAlertManager.check_sentiment
            (SentimentAlertManager.check_sentiment self score msg now).2
            score msg now).2.alert_history =
          self.alert_history ++
            [⟨now, score, 30, msg, SentimentAlertManager._calculate_severity score⟩,
             ⟨now, score, 30, msg, SentimentAlertManager._calculate_severity score⟩]) := by
  intro self msg now ht he
  have hlow : ∀ score : ℚ, score < 30 →
      SentimentAlertManager.check_sentiment self score msg now =
        (some ⟨now, score, 30, msg, SentimentAlertManager._calculate_severity score⟩,
         { self with alert_history := self.alert_history ++
            [⟨now, score, 30, msg, SentimentAlertManager._calculate_severity score⟩] }) := by
    intro score hs
    unfold SentimentAlertManager.check_sentiment
    rw [he, ht]
    norm_num [hs]
  have hhigh : ∀ score : ℚ, 30 ≤ score →
      SentimentAlertManager.check_sentiment self score msg now = (none, self) := by
    intro score hs
    unfold SentimentAlertManager.check_sentiment
    rw [he, ht]
    norm_num [not_lt.mpr hs]
  refine ⟨hhigh, hlow, ?_, ?_, hhigh 30 le_rfl, ?_⟩
  · rw [hlow 29 (by norm_num)]
    norm_num [SentimentAlertManager._calculate_severity]
  · rw [hlow 9 (by norm_num)]
    norm_num [SentimentAlertManager._calculate_severity]
  · intro score hs
    rw [hlow score hs]
    unfold SentimentAlertManager.check_sentiment
    simp only [he, ht]
    norm_num [hs]

/-- Witness for C4 at a fresh default manager (threshold 30). -/
theorem c4_alert_bands_witness :
    (⟨30, [], true⟩ : SentimentAlertManager).threshold = 30 ∧
    (⟨30, [], true⟩ : SentimentAlertManager).alert_enabled = true ∧
    ((30 : ℚ) ≤ 31 ∧
      SentimentAlertManager.check_sentiment ⟨30, [], true⟩ 31 none "t" =
        (none, ⟨30, [], true⟩)) ∧
    ((29 : ℚ) < 30 ∧
      SentimentAlertManager.check_sentiment ⟨30, [], true⟩ 29 none "t" =
        (some ⟨"t", 29, 30, none, SentimentAlertManager._calculate_severity 29⟩,
         ⟨30, [⟨"t", 29, 30, none, SentimentAlertManager._calculate_severity 29⟩], true⟩)) ∧
    ((SentimentAlertManager.check_sentiment ⟨30, [], true⟩ 29 none "t").1.map
        SentimentAlertManager.Alert.severity = some "medium") ∧
    ((SentimentAlertManager.check_sentiment ⟨30, [], true⟩ 9 none "t").1.map
        SentimentAlertManager.Alert.severity = some "critical") ∧
    SentimentAlertManager.check_sentiment ⟨30, [], true⟩ 30 none "t" =
      (none, ⟨30, [], true⟩) :=
  ⟨rfl, rfl,
   ⟨by norm_num, (c4_alert_bands ⟨30, [], true⟩ none "t" rfl rfl).1 31 (by norm_num)⟩,
   ⟨by norm_num, (c4_alert_bands ⟨30, [], true⟩ none "t" rfl rfl).2.1 29 (by norm_num)⟩,
   (c4_alert_bands ⟨30, [], true⟩ none "t" rfl rfl).2.2.1,
   (c4_alert_bands ⟨30, [], true⟩ none "t" rfl rfl).2.2.2.1,
   (c4_alert_bands ⟨30, [], true⟩ none "t" rfl rfl).2.2.2.2.1⟩

/-- C5: while the alert manager is disabled, `check_sentiment` returns
nothing, creates no alert and leaves the history unchanged; in particular
evaluating score 0 right after `disable_alerts` returns nothing. -/
theorem c5_disabled_noop :
    (∀ (self : SentimentAlertManager) (score : ℚ) (msg : Option String) (now : String),
      self.alert_enabled = false →
      SentimentAlertManager.check_sentiment self score msg now = (none, self)) ∧
    (∀ (self : SentimentAlertManager) (msg : Option String) (now : String),
      SentimentAlertManager.check_sentiment
          (SentimentAlertManager.disable_alerts self) 0 msg now =
        (none, SentimentAlertManager.disable_alerts self)) := by
  constructor
  · intro self score msg now h
    unfold SentimentAlertManager.check_sentiment
    rw [h]
    rfl
  · intro self msg now
    unfold SentimentAlertManager.check_sentiment SentimentAlertManager.disable_alerts
    rfl

/-- Witness for C5 at a concrete disabled manager. -/
theorem c5_disabled_noop_witness :
    (⟨30, [], false⟩ : SentimentAlertManager).alert_enabled = false ∧
    SentimentAlertManager.check_sentiment ⟨30, [], false⟩ 0 none "t" =
      (none, ⟨30, [], false⟩) :=
  ⟨rfl, c5_disabled_noop.1 ⟨30, [], false⟩ 0 none "t" rfl⟩

/-- C6: the persist/load round trip reproduces the session id and the exact
message history (order, role, content and timestamps of the messages are
preserved verbatim); `created_at`/`updated_at` are also carried in the
record, and in any case may differ only by what the file holds. -/
theorem c6_save_load_roundtrip :
    ∀ (self : ConversationManager) (now : String),
      (ConversationManager.load_from_file
          (ConversationManager.save_to_file self) now).session_id = self.session_id ∧
      (ConversationManager.load_from_file
          (ConversationManager.save_to_file self) now).history = self.history := by
  intro self now
  constructor <;>
    simp [ConversationManager.load_from_file, ConversationManager.save_to_file,
      ConversationManager.init]

/-- C7 counterexample: loading a record with every structural field missing
does not fail; it returns a session built entirely from defaults. -/
theorem c7_load_missing_counterexample :
    ConversationManager.load_from_file ⟨none, none, none, none, [("note", "x")]⟩ "T0" =
      ⟨[], "session_T0", "T0", "T0"⟩ := rfl

/-- C7 (amended): `load_from_file` never fails on a record missing
structural fields: a missing `session_id` is replaced by a freshly generated
one, missing `created_at`/`updated_at` by the current time, and a missing
`history` by the empty list, while unknown extra fields are ignored. -/
theorem c7_load_defaults :
    ∀ (data : ConversationManager.SavedData) (now : String),
      (data.session_id = none →
        (ConversationManager.load_from_file data now).session_id =
          ConversationManager._generate_session_id now) ∧
      (data.created_at = none →
        (ConversationManager.load_from_file data now).created_at = now) ∧
      (data.updated_at = none →
        (ConversationManager.load_from_file data now).updated_at = now) ∧
      (data.history = none →
        (ConversationManager.load_from_file data now).history = []) ∧
      (∀ extra, ConversationManager.load_from_file { data with extra := extra } now =
        ConversationManager.load_from_file data now) := by
  intro data now
  refine ⟨?_, ?_, ?_, ?_, fun extra => rfl⟩ <;>
    intro h <;>
    simp [ConversationManager.load_from_file, ConversationManager.init, h]

/-- Witness for C7 at the all-missing record. -/
theorem c7_load_defaults_witness :
    ((⟨none, none, none, none, []⟩ : ConversationManager.SavedData).session_id = none ∧
      (ConversationManager.load_from_file ⟨none, none, none, none, []⟩ "T1").session_id =
        ConversationManager._generate_session_id "T1") ∧
    ((⟨none, none, none, none, []⟩ : ConversationManager.SavedData).history = none ∧
      (ConversationManager.load_from_file ⟨none, none, none, none, []⟩ "T1").history = []) :=
  ⟨⟨rfl, (c7_load_defaults ⟨none, none, none, none, []⟩ "T1").1 rfl⟩,
   ⟨rfl, (c7_load_defaults ⟨none, none, none, none, []⟩ "T1").2.2.2.1 rfl⟩⟩

/-- C10: a sentiment-result dict without a score entry is evaluated by
`check_statement_sentiment` as if the score were 50: an alert is produced
exactly when alerts are enabled and 50 is strictly below the threshold, so
with the default threshold of 30 such a result never creates an alert. -/
theorem c10_missing_score_default :
    ∀ (self : SentimentAlertManager) (r : AnalysisResult)
      (msg : Option String) (now : String),
      r.score = none →
      ((SentimentAlertManager.check_statement_sentiment self r msg now).1.isSome = true ↔
        (self.alert_enabled = true ∧ (50 : ℚ) < self.threshold)) ∧
      (self.threshold = 30 →
        SentimentAlertManager.check_statement_sentiment self r msg now = (none, self)) := by
  intro self r msg now h
  have hscore : ((r.score.getD 50 : ℤ) : ℚ) = 50 := by
    rw [h]
    norm_num
  constructor
  · unfold SentimentAlertManager.check_statement_sentiment
      SentimentAlertManager.check_sentiment
    rw [hscore]
    cases he : self.alert_enabled
    · simp
    · by_cases hc : (50 : ℚ) < self.threshold
      · simp [hc]
      · simp [hc]
  · intro ht
    unfold SentimentAlertManager.check_statement_sentiment
      SentimentAlertManager.check_sentiment
    rw [hscore, ht]
    norm_num

/-- Witness for C10: the degenerate empty-text analysis result (which has no
score entry) against the default-threshold manager. -/
theorem c10_missing_score_default_witness :
    (⟨"neutral", 0, ⟨0.33, 0.34, 0.33⟩, none⟩ : AnalysisResult).score = none ∧
    SentimentAlertManager.default_init.threshold = 30 ∧
    SentimentAlertManager.check_statement_sentiment SentimentAlertManager.default_init
        ⟨"neutral", 0, ⟨0.33, 0.34, 0.33⟩, none⟩ none "t" =
      (none, SentimentAlertManager.default_init) :=
  ⟨rfl, rfl,
   (c10_missing_score_default SentimentAlertManager.default_init
     ⟨"neutral", 0, ⟨0.33, 0.34, 0.33⟩, none⟩ none "t" rfl).2 rfl⟩

/-- The export row loop with the result cursor at `user_msg_index` behaves
like the positional specification on the remaining results. -/
theorem csvLoop_eq_positional (msgs : List ConversationManager.Message) :
    ∀ (i user_msg_index : ℕ) (results : List SentResult),
      csvLoop msgs i user_msg_index results =
        csvPositionalSpec msgs (results.drop user_msg_index) i := by
  induction msgs with
  | nil => intro i uidx results; rfl
  | cons m rest ih =>
    intro i uidx results
    by_cases hu : m.role = "user"
    · by_cases hlen : uidx < results.length
      · rw [csvLoop, dif_pos ⟨hu, hlen⟩, List.drop_eq_getElem_cons hlen]
        simp only [csvPositionalSpec]
        rw [if_pos hu]
        simp only [List.get_eq_getElem]
        rw [ih]
      · rw [csvLoop, dif_neg (fun hc => hlen hc.2),
          List.drop_eq_nil_of_le (Nat.le_of_not_lt hlen)]
        simp only [csvPositionalSpec]
        rw [if_pos hu, ih]
        rw [List.drop_eq_nil_of_le (Nat.le_of_not_lt hlen)]
    · rw [csvLoop, dif_neg (fun hc => hu hc.1)]
      simp only [csvPositionalSpec]
      rw [if_neg hu, ih]

/-- C8: the tabular (CSV) export matches sentiment results positionally
against user messages only — each user row in order consumes the next
result, assistant rows and user rows beyond the supplied results get
placeholder values, and fewer results than user messages is not an error;
in particular a 3-message history (user, assistant, user) with one result
places it on the first user row and placeholders on the other two rows. -/
theorem c8_csv_positional :
    (∀ (conversation_history : List ConversationManager.Message)
       (sentiment_results : List SentResult),
      export_to_csv conversation_history sentiment_results =
        headerRow :: csvPositionalSpec conversation_history sentiment_results 0) ∧
    (export_to_csv
        [⟨"user", "a", "t1"⟩, ⟨"assistant", "b", "t2"⟩, ⟨"user", "c", "t3"⟩]
        [⟨some "positive", some 80, some 0.9⟩] =
      [headerRow,
       [Cell.int 1, Cell.str "user", Cell.str "a",
        Cell.str "positive", Cell.int 80, Cell.pct 0.9],
       [Cell.int 2, Cell.str "assistant", Cell.str "b",
        Cell.str "N/A", Cell.str "N/A", Cell.str "N/A"],
       [Cell.int 3, Cell.str "user", Cell.str "c",
        Cell.str "N/A", Cell.str "N/A", Cell.str "N/A"]]) := by
  constructor
  · intro history results
    rw [export_to_csv, csvLoop_eq_positional, List.drop_zero]
  · rfl

/-- `dictAdd` at a matching head key updates in place. -/
theorem dictAdd_head (k : String) (v s : ℚ) (t : List (String × ℚ)) :
    dictAdd ((k, v) :: t) k s = some ((k, v + s) :: t) := by
  simp [dictAdd]

/-- `dictAdd` skips a non-matching head entry. -/
theorem dictAdd_cons_ne {p : String × ℚ} {e : String} (h : p.1 ≠ e)
    (t : List (String × ℚ)) (s : ℚ) :
    dictAdd (p :: t) e s = (dictAdd t e s).map (fun r => p :: r) := by
  obtain ⟨k, v⟩ := p
  simp only [dictAdd]
  rw [if_neg h]

/-- `dictAdd` skips a whole prefix whose keys differ from the target key. -/
theorem dictAdd_append {pre : List (String × ℚ)} {e : String}
    (h : ∀ p ∈ pre, p.1 ≠ e) (l : List (String × ℚ)) (s : ℚ) :
    dictAdd (pre ++ l) e s = (dictAdd l e s).map (fun r => pre ++ r) := by
  induction pre with
  | nil =>
    simp only [List.nil_append]
    cases dictAdd l e s <;> simp
  | cons p pre ih =>
    rw [List.cons_append, dictAdd_cons_ne (h p (List.mem_cons_self p pre)) _ s,
      ih (fun q hq => h q (List.mem_cons_of_mem p hq))]
    cases dictAdd l e s <;> simp

/-- Folding a score dict with the same ordered key list into the
accumulator adds componentwise. -/
theorem addScores_zip :
    ∀ (ks : List String) (pre : List (String × ℚ)) (as vs : List ℚ),
      ks.Nodup → (∀ p ∈ pre, p.1 ∉ ks) →
      as.length = ks.length → vs.length = ks.length →
      addScores (pre ++ ks.zip as) (ks.zip vs) =
        some (pre ++ ks.zip (List.zipWith (· + ·) as vs)) := by
  intro ks
  induction ks with
  | nil =>
    intro pre as vs _ _ _ _
    simp [addScores]
  | cons k ks ih =>
    intro pre as vs hnd hpre has hvs
    match as, vs with
    | [], _ => simp at has
    | _ :: _, [] => simp at hvs
    | a :: as, v :: vs =>
      simp only [List.zip_cons_cons, List.zipWith_cons_cons]
      simp only [addScores]
      have hk : ∀ p ∈ pre, p.1 ≠ k :=
        fun p hp => fun hc => hpre p hp (hc ▸ List.mem_cons_self k ks)
      rw [dictAdd_append hk _ v, dictAdd_head]
      simp only [Option.map_some', Option.some_bind]
      have hstep : pre ++ (k, a + v) :: ks.zip as =
          (pre ++ [(k, a + v)]) ++ ks.zip as := by
        simp
      rw [hstep, ih (pre ++ [(k, a + v)]) as vs (List.nodup_cons.mp hnd).2
        (by
          intro p hp
          rcases List.mem_append.mp hp with hl | hr
          · exact fun hc => hpre p hl (List.mem_cons_of_mem k hc)
          · rcases List.mem_singleton.mp hr with rfl
            exact (List.nodup_cons.mp hnd).1)
        (by simpa using has) (by simpa using hvs)]
      simp

/-- Folding every result (all sharing the ordered key list) sums the
value vectors componentwise. -/
theorem sumScores_zip :
    ∀ (ks : List String) (vss : List (List ℚ)) (as : List ℚ),
      ks.Nodup → (∀ vs ∈ vss, vs.length = ks.length) → as.length = ks.length →
      sumScores (ks.zip as) (vss.map (fun vs => ks.zip vs)) =
        some (ks.zip (vss.foldl (fun acc vs => List.zipWith (· + ·) acc vs) as)) := by
  intro ks vss
  induction vss with
  | nil =>
    intro as _ _ _
    simp [sumScores]
  | cons vs vss ih =>
    intro as hnd hlen has
    simp only [List.map_cons, List.foldl_cons, sumScores]
    have h1 := addScores_zip ks [] as vs hnd (by simp) has
      (hlen vs (List.mem_cons_self vs vss))
    simp only [List.nil_append] at h1
    rw [h1]
    simp only [Option.some_bind]
    exact ih (List.zipWith (· + ·) as vs) hnd
      (fun u hu => hlen u (List.mem_cons_of_mem vs hu))
      (by
        rw [List.length_zipWith, has, hlen vs (List.mem_cons_self vs vss)]
        simp)

/-- Componentwise reading of `zipWith` addition. -/
theorem getD_zipWith_add :
    ∀ (as vs : List ℚ) (i : ℕ), i < as.length → i < vs.length →
      (List.zipWith (· + ·) as vs).getD i 0 = as.getD i 0 + vs.getD i 0 := by
  intro as
  induction as with
  | nil => intro vs i h _; simp at h
  | cons a as ih =>
    intro vs i h1 h2
    match vs, i with
    | [], _ => simp at h2
    | v :: vs, 0 => rfl
    | v :: vs, i + 1 =>
      simp only [List.zipWith_cons_cons, List.getD_cons_succ]
      exact ih vs i (by simpa using h1) (by simpa using h2)

/-- The vector fold of the summary loop preserves length. -/
theorem foldl_zipWith_length :
    ∀ (vss : List (List ℚ)) (as : List ℚ), (∀ vs ∈ vss, vs.length = as.length) →
      (vss.foldl (fun acc vs => List.zipWith (· + ·) acc vs) as).length = as.length := by
  intro vss
  induction vss with
  | nil => intro as _; rfl
  | cons vs vss ih =>
    intro as hlen
    simp only [List.foldl_cons]
    have hl : (List.zipWith (· + ·) as vs).length = as.length := by
      rw [List.length_zipWith, hlen vs (List.mem_cons_self vs vss)]
      simp
    rw [ih (List.zipWith (· + ·) as vs)
      (fun u hu => by rw [hlen u (List.mem_cons_of_mem vs hu), hl]), hl]

/-- Componentwise reading of the vector fold: the i-th accumulated value is
the start value plus the sum of the i-th entries of all vectors. -/
theorem foldl_zipWith_getD :
    ∀ (vss : List (List ℚ)) (as : List ℚ) (i : ℕ),
      (∀ vs ∈ vss, vs.length = as.length) → i < as.length →
      (vss.foldl (fun acc vs => List.zipWith (· + ·) acc vs) as).getD i 0 =
        as.getD i 0 + (vss.map (fun vs => vs.getD i 0)).sum := by
  intro vss
  induction vss with
  | nil => intro as i _ _; simp
  | cons vs vss ih =>
    intro as i hlen hi
    simp only [List.foldl_cons, List.map_cons, List.sum_cons]
    have hl : (List.zipWith (· + ·) as vs).length = as.length := by
      rw [List.length_zipWith, hlen vs (List.mem_cons_self vs vss)]
      simp
    rw [ih (List.zipWith (· + ·) as vs) i
      (fun u hu => by rw [hlen u (List.mem_cons_of_mem vs hu), hl]) (by rw [hl]; exact hi)]
    rw [getD_zipWith_add as vs i hi
      (by rw [hlen vs (List.mem_cons_self vs vss)]; exact hi)]
    ring

/-- Reading a zipped dict at the i-th key gives the i-th value (keys
pairwise distinct). -/
theorem dictGet_zip :
    ∀ (ks : List String) (as : List ℚ) (i : ℕ) (h : i < ks.length),
      ks.Nodup → as.length = ks.length →
      dictGet (ks.zip as) (ks.get ⟨i, h⟩) = as.getD i 0 := by
  intro ks
  induction ks with
  | nil => intro as i h; simp at h
  | cons k ks ih =>
    intro as i h hnd has
    match as, i with
    | [], _ => simp at has
    | a :: as, 0 => simp [dictGet]
    | a :: as, i + 1 =>
      have hmem : (k :: ks).get ⟨i + 1, h⟩ ∈ ks := by
        simp only [List.get_eq_getElem, List.getElem_cons_succ]
        exact List.getElem_mem _
      have hne : k ≠ (k :: ks).get ⟨i + 1, h⟩ :=
        fun hc => (List.nodup_cons.mp hnd).1 (hc ▸ hmem)
      simp only [List.zip_cons_cons, dictGet, List.getD_cons_succ]
      rw [if_neg hne]
      have h2 : i < ks.length := by simpa using h
      have hrw : (k :: ks).get ⟨i + 1, h⟩ = ks.get ⟨i, h2⟩ := by
        simp [List.get_eq_getElem]
      rw [hrw]
      exact ih as i h2 (List.nodup_cons.mp hnd).2 (by simpa using has)

/-- Dividing each value of a zipped dict is zipping with divided values. -/
theorem zip_map_div :
    ∀ (ks : List String) (ws : List ℚ) (c : ℚ),
      (ks.zip ws).map (fun p => (p.1, p.2 / c)) =
        ks.zip (ws.map (fun w => w / c)) := by
  intro ks
  induction ks with
  | nil => intro ws c; rfl
  | cons k ks ih =>
    intro ws c
    match ws with
    | [] => rfl
    | w :: ws => simp [ih]

/-- The all-zero initial accumulator as a zip. -/
theorem map_zero_eq_zip (ks : List String) :
    ks.map (fun e => (e, (0 : ℚ))) = ks.zip (List.replicate ks.length 0) := by
  induction ks with
  | nil => rfl
  | cons k ks ih => simp [List.replicate_succ, ih]

/-- Componentwise reading of a divided value list. -/
theorem getD_map_div :
    ∀ (ws : List ℚ) (i : ℕ) (c : ℚ),
      (ws.map (fun w => w / c)).getD i 0 = ws.getD i 0 / c := by
  intro ws
  induction ws with
  | nil => intro i c; simp
  | cons w ws ih =>
    intro i c
    match i with
    | 0 => rfl
    | i + 1 =>
      simp only [List.map_cons, List.getD_cons_succ]
      exact ih i c

/-- Reading the all-zero vector gives zero. -/
theorem getD_replicate_zero :
    ∀ (n i : ℕ), (List.replicate n (0 : ℚ)).getD i 0 = 0 := by
  intro n
  induction n with
  | zero => intro i; simp
  | succ n ih =>
    intro i
    match i with
    | 0 => rfl
    | i + 1 =>
      simp only [List.replicate_succ, List.getD_cons_succ]
      exact ih i

/-- C9: `get_emotion_summary` returns every configured emotion label mapped
to exactly 0.0 on an empty result sequence, and on every non-empty sequence
it returns, for each label, the arithmetic mean of that label's probability
across all results (per label independently, without renormalization). -/
theorem c9_emotion_summary :
    (get_emotion_summary [] = some (emotion_labels.map (fun e => (e, 0)))) ∧
    (∀ (vss : List (List ℚ)), vss ≠ [] →
      (∀ vs ∈ vss, vs.length = emotion_labels.length) →
      ∀ e ∈ emotion_labels,
        (get_emotion_summary (vss.map (fun vs => emotion_labels.zip vs))).map
            (fun s => dictGet s e) =
          some ((vss.map (fun vs => dictGet (emotion_labels.zip vs) e)).sum /
            (vss.length : ℚ))) := by
  constructor
  · rfl
  · intro vss hne hlen e he
    obtain ⟨⟨i, hi⟩, hgi⟩ := List.mem_iff_get.mp he
    have hne2 : (vss.map (fun vs => emotion_labels.zip vs)).isEmpty = false := by
      cases vss with
      | nil => exact absurd rfl hne
      | cons v vs => rfl
    have hnd : emotion_labels.Nodup := by decide
    have hlenr : ∀ vs ∈ vss,
        vs.length = (List.replicate emotion_labels.length (0 : ℚ)).length := by
      intro vs hvs
      rw [hlen vs hvs]
      simp
    unfold get_emotion_summary
    simp only [hne2, Bool.false_eq_true, if_false]
    rw [map_zero_eq_zip]
    rw [sumScores_zip emotion_labels vss (List.replicate emotion_labels.length 0)
      hnd hlen (by simp)]
    simp only [Option.map_some']
    rw [List.length_map]
    rw [zip_map_div]
    rw [← hgi]
    rw [dictGet_zip emotion_labels _ i hi hnd
      (by
        rw [List.length_map, foldl_zipWith_length vss _ hlenr]
        simp)]
    rw [getD_map_div]
    rw [foldl_zipWith_getD vss _ i hlenr (by simpa using hi)]
    rw [getD_replicate_zero, zero_add]
    have hmc : vss.map (fun vs => dictGet (emotion_labels.zip vs)
          (emotion_labels.get ⟨i, hi⟩)) =
        vss.map (fun vs => vs.getD i 0) :=
      List.map_congr_left (fun vs hvs => dictGet_zip emotion_labels vs i hi hnd (hlen vs hvs))
    rw [hmc]

/-- Witness for C9 at two concrete emotion results with joy 0.8 and 0.2:
their aggregate maps joy to the mean 0.5. -/
theorem c9_emotion_summary_witness :
    ([[0.8, 0.05, 0.05, 0.02, 0.03, 0.03, 0.02],
      [0.2, 0.2, 0.1, 0.1, 0.1, 0.15, 0.15]] : List (List ℚ)) ≠ [] ∧
    (∀ vs ∈ ([[0.8, 0.05, 0.05, 0.02, 0.03, 0.03, 0.02],
      [0.2, 0.2, 0.1, 0.1, 0.1, 0.15, 0.15]] : List (List ℚ)),
      vs.length = emotion_labels.length) ∧
    "joy" ∈ emotion_labels ∧
    (get_emotion_summary
        (([[0.8, 0.05, 0.05, 0.02, 0.03, 0.03, 0.02],
           [0.2, 0.2, 0.1, 0.1, 0.1, 0.15, 0.15]] : List (List ℚ)).map
          (fun vs => emotion_labels.zip vs))).map (fun s => dictGet s "joy") =
      some ((([[0.8, 0.05, 0.05, 0.02, 0.03, 0.03, 0.02],
           [0.2, 0.2, 0.1, 0.1, 0.1, 0.15, 0.15]] : List (List ℚ)).map
          (fun vs => dictGet (emotion_labels.zip vs) "joy")).sum /
        (([[0.8, 0.05, 0.05, 0.02, 0.03, 0.03, 0.02],
           [0.2, 0.2, 0.1, 0.1, 0.1, 0.15, 0.15]] : List (List ℚ)).length : ℚ)) ∧
    (([[0.8, 0.05, 0.05, 0.02, 0.03, 0.03, 0.02],
           [0.2, 0.2, 0.1, 0.1, 0.1, 0.15, 0.15]] : List (List ℚ)).map
          (fun vs => dictGet (emotion_labels.zip vs) "joy")).sum /
        (([[0.8, 0.05, 0.05, 0.02, 0.03, 0.03, 0.02],
           [0.2, 0.2, 0.1, 0.1, 0.1, 0.15, 0.15]] : List (List ℚ)).length : ℚ) = 0.5 :=
  ⟨by decide, by decide, by decide,
   c9_emotion_summary.2 _ (by decide) (by decide) "joy" (by decide),
   by norm_num [emotion_labels, dictGet]⟩
